import Mathlib

/-!
EOS S3 board support (libeos): fabric-block interrupts, reboot cause, DFS policy table

A shallow embedding of

* `libeos_exceptions.c`: `FB_ISR`, `FbMsg_Handler`, `FB_RegisterISR`, `FB_ConfigureInterrupt`;
* `sec_debug.c`: `save_assert_info`;
* `s3x_pwrcfg.c` / `s3x_pwrcfg.h`: `dfs_node`, `S3x_pwrcfg_init`, the `*_IDX` and `*_CLK` macros.

Conventions.  A 32-bit register holds a natural number; every store reduces modulo `2 ^ 32`.
A function pointer is a natural number and `NULL` is `0`.  What a registered routine does
when called is an argument of the handler: a function on the memory that holds `FB_ISR`.  Macros that the vendor headers
(`eoss3_dev.h`, `eoss3_hal_def.h`, `s3x_clock.h`, `s3x_dfs.h`, `Fw_global_config.h`) define are
fields of a structure of constants that every definition takes as an argument, so each theorem
holds for all values of those macros.
-/

namespace LibEos

/-! ## Machine words -/

/-- Width of the `uint32_t` registers of the interrupt controller and of `int`. -/
def WORD_BITS : Nat := 32

/-- Conversion of a value to `uint32_t`. -/
def u32 (x : Nat) : Nat := x % 2 ^ WORD_BITS

/-- Conversion of a value to `UINT8_t`. -/
def u8 (x : Nat) : Nat := x % 2 ^ 8

/-- The C operator `~` on a 32-bit operand: every one of the 32 bits is flipped. -/
def not32 (x : Nat) : Nat := (2 ^ WORD_BITS - 1) ^^^ u32 x

/-- The C expression `(1 << n)` as the 32-bit pattern that reaches a `uint32_t` register.
For `n = 31` this is `0x80000000`, the pattern GCC produces for the `int` shift.  For
`n >= 32` the C shift has no defined value; no theorem below relies on the value given here. -/
def bit32 (n : Nat) : Nat := u32 (1 <<< n)

/-- The compound assignment `reg &= ~m` on a `uint32_t` register. -/
def clearBits (reg m : Nat) : Nat := u32 (reg &&& not32 m)

/-- The compound assignment `reg |= m` on a `uint32_t` register. -/
def setBits (reg m : Nat) : Nat := u32 (reg ||| m)

/-! ## Fabric-block interrupt dispatch (`libeos_exceptions.c`) -/

/-- The type `HAL_FBISRfunction`: a pointer to a `void (*)(void)` routine, as its address. -/
abbrev HAL_FBISRfunction := Nat

/-- The null function pointer. -/
def NULL : HAL_FBISRfunction := 0

/-- Modelled from the spec: the macro `MAX_FB_INTERRUPTS` of the absent header
`eoss3_hal_def.h`, taken as 4, the number of entries the initialiser of `FB_ISR` lists. -/
abbrev MAX_FB_INTERRUPTS : Nat := 4

/-- The global `FB_ISR [MAX_FB_INTERRUPTS]`: one handler slot per fabric-block interrupt.
A slot can only be addressed with an index below `MAX_FB_INTERRUPTS`. -/
abbrev FB_ISR_Table := Fin MAX_FB_INTERRUPTS → HAL_FBISRfunction

/-- The initial value `{NULL, NULL, NULL, NULL}` of `FB_ISR`. -/
def FB_ISR_init : FB_ISR_Table := fun _ => NULL

/-- Modelled from the spec: the macro `FB_INTERRUPT_0` of the absent header
`eoss3_hal_def.h`, the index of slot 0 of `FB_ISR`. -/
def FB_INTERRUPT_0 : Fin MAX_FB_INTERRUPTS := 0

/-- Modelled from the spec: the macro `FB_INTERRUPT_1`, the index of slot 1 of `FB_ISR`. -/
def FB_INTERRUPT_1 : Fin MAX_FB_INTERRUPTS := 1

/-- Modelled from the spec: the macro `FB_INTERRUPT_2`, the index of slot 2 of `FB_ISR`. -/
def FB_INTERRUPT_2 : Fin MAX_FB_INTERRUPTS := 2

/-- Modelled from the spec: the macro `FB_INTERRUPT_3`, the index of slot 3 of `FB_ISR`. -/
def FB_INTERRUPT_3 : Fin MAX_FB_INTERRUPTS := 3

/-- Bit masks of `eoss3_dev.h` used by `FbMsg_Handler`: the four status masks of
`INTR_CTRL->FB_INTR_RAW` and the four values written to `INTR_CTRL->FB_INTR`. -/
structure FbMasks where
  FB_0_INTR_RAW : Nat
  FB_1_INTR_RAW : Nat
  FB_2_INTR_RAW : Nat
  FB_3_INTR_RAW : Nat
  FB_0_INTR_DETECT : Nat
  FB_1_INTR_DETECT : Nat
  FB_2_INTR_DETECT : Nat
  FB_3_INTR_DETECT : Nat
  deriving DecidableEq, Repr

/-- The mask `FB_i_INTR_RAW` of slot `i`. -/
def FbMasks.raw (k : FbMasks) (i : Fin MAX_FB_INTERRUPTS) : Nat :=
  match i with
  | ⟨0, _⟩ => k.FB_0_INTR_RAW
  | ⟨1, _⟩ => k.FB_1_INTR_RAW
  | ⟨2, _⟩ => k.FB_2_INTR_RAW
  | _ => k.FB_3_INTR_RAW

/-- The value `FB_i_INTR_DETECT` of slot `i`. -/
def FbMasks.detect (k : FbMasks) (i : Fin MAX_FB_INTERRUPTS) : Nat :=
  match i with
  | ⟨0, _⟩ => k.FB_0_INTR_DETECT
  | ⟨1, _⟩ => k.FB_1_INTR_DETECT
  | ⟨2, _⟩ => k.FB_2_INTR_DETECT
  | _ => k.FB_3_INTR_DETECT

/-- What `FbMsg_Handler` does that is visible outside it, in program order. -/
inductive Event where
  /-- The call `sec_save_irq_history("FbMsg", ...)`. -/
  | save_irq_history : Event
  /-- The call `FB_ISR[slot]()`, with the function pointer `fn` read from the slot. -/
  | call (slot : Fin MAX_FB_INTERRUPTS) (fn : HAL_FBISRfunction) : Event
  /-- The store `INTR_CTRL->FB_INTR = v`. -/
  | write_FB_INTR (v : Nat) : Event
  deriving DecidableEq, Repr

/-- The memory a registered routine can read and change while the handler runs: the global
table `FB_ISR`, and `rest`, everything else (of any type `σ`). -/
structure FbWorld (σ : Type) where
  FB_ISR : FB_ISR_Table
  rest : σ

/-- The effect of the registered routines: `run fn w` is the memory after the routine at
address `fn` has been called in memory `w` and has returned.  A routine may call
`FB_RegisterISR` and so change `FB_ISR`. -/
abbrev RoutineEffect (σ : Type) := HAL_FBISRfunction → FbWorld σ → FbWorld σ

/-- One `if ( INTR_CTRL->FB_INTR_RAW & FB_i_INTR_RAW) { ... }` block of `FbMsg_Handler`:
`rawRead` is the value this read of the register returns, `mask` is `FB_i_INTR_RAW`,
`slot` is `FB_INTERRUPT_i` and `detect` is `FB_i_INTR_DETECT`.  The slot is read from the
table as it is when the block is reached; when the entry is not `NULL` the routine is called
and the memory it leaves is handed on.  The result is what the handler itself does in the
block, and the memory after it. -/
def fbBlock {σ : Type} (run : RoutineEffect σ) (rawRead mask : Nat)
    (slot : Fin MAX_FB_INTERRUPTS) (detect : Nat) (w : FbWorld σ) : List Event × FbWorld σ :=
  if rawRead &&& mask ≠ 0 then
    if w.FB_ISR slot ≠ NULL then
      ([Event.call slot (w.FB_ISR slot), Event.write_FB_INTR detect], run (w.FB_ISR slot) w)
    else
      ([Event.write_FB_INTR detect], w)
  else ([], w)

/-- The interrupt handler `FbMsg_Handler`.  `run` is the effect of the registered routines;
`configSAVE_IRQ_HISTORY` is the build option of that name; `FB_INTR_RAW n` is the value
returned by the `n`-th read (counted from 0) of the volatile register
`INTR_CTRL->FB_INTR_RAW`; `w` is the memory at entry, with the handler table `FB_ISR`.  Each
block reads the table the earlier blocks, and the routines they called, have left.  The
result is the sequence of calls and register stores the handler itself performs, and the
memory at exit. -/
def FbMsg_Handler {σ : Type} (run : RoutineEffect σ) (k : FbMasks)
    (configSAVE_IRQ_HISTORY : Nat) (FB_INTR_RAW : Nat → Nat) (w : FbWorld σ) :
    List Event × FbWorld σ :=
  let b0 := fbBlock run (FB_INTR_RAW 0) k.FB_0_INTR_RAW FB_INTERRUPT_0 k.FB_0_INTR_DETECT w
  let b1 := fbBlock run (FB_INTR_RAW 1) k.FB_1_INTR_RAW FB_INTERRUPT_1 k.FB_1_INTR_DETECT b0.2
  let b2 := fbBlock run (FB_INTR_RAW 2) k.FB_2_INTR_RAW FB_INTERRUPT_2 k.FB_2_INTR_DETECT b1.2
  let b3 := fbBlock run (FB_INTR_RAW 3) k.FB_3_INTR_RAW FB_INTERRUPT_3 k.FB_3_INTR_DETECT b2.2
  ((if configSAVE_IRQ_HISTORY = 1 then [Event.save_irq_history] else [])
      ++ b0.1 ++ b1.1 ++ b2.1 ++ b3.1,
    b3.2)

/-- The values stored to `INTR_CTRL->FB_INTR` by a trace, in order. -/
def fbIntrWrites : List Event → List Nat
  | [] => []
  | Event.write_FB_INTR v :: es => v :: fbIntrWrites es
  | _ :: es => fbIntrWrites es

/-- The slots of `FB_ISR` in ascending order. -/
def fbSlots : List (Fin MAX_FB_INTERRUPTS) :=
  [FB_INTERRUPT_0, FB_INTERRUPT_1, FB_INTERRUPT_2, FB_INTERRUPT_3]

/-- The function `FB_RegisterISR`: the store happens only under the range check, which
supplies the proof that the index addresses a slot of the table. -/
def FB_RegisterISR (fbIrq : Nat) (ISRfn : HAL_FBISRfunction) (FB_ISR : FB_ISR_Table) :
    FB_ISR_Table :=
  if h : fbIrq < MAX_FB_INTERRUPTS then Function.update FB_ISR ⟨fbIrq, h⟩ ISRfn else FB_ISR

/-- The blocks of `FbMsg_Handler` for the slots of `l`, run one after the other from memory
`w`: block `i` tests read number `i` of `FB_INTR_RAW` against `FB_i_INTR_RAW`.  The handler
is the run over `fbSlots`. -/
def runSlots {σ : Type} (run : RoutineEffect σ) (k : FbMasks) (FB_INTR_RAW : Nat → Nat) :
    List (Fin MAX_FB_INTERRUPTS) → FbWorld σ → List Event × FbWorld σ
  | [], w => ([], w)
  | i :: l, w =>
    ((fbBlock run (FB_INTR_RAW i.val) (k.raw i) i (k.detect i) w).1
        ++ (runSlots run k FB_INTR_RAW l
              (fbBlock run (FB_INTR_RAW i.val) (k.raw i) i (k.detect i) w).2).1,
      (runSlots run k FB_INTR_RAW l
        (fbBlock run (FB_INTR_RAW i.val) (k.raw i) i (k.detect i) w).2).2)

/-- The masks of the examples: `FB_i_INTR_RAW` and `FB_i_INTR_DETECT` are bit `i`. -/
def exampleMasks : FbMasks := ⟨1, 2, 4, 8, 1, 2, 4, 8⟩

/-- Routines that only count their calls in `rest`; none touches `FB_ISR`. -/
def countingRoutines : RoutineEffect Nat :=
  fun _ w => { w with rest := w.rest + 1 }

/-- Routines of which the one at address `0x200` runs `FB_RegisterISR(1, 0x400)`, the one at
`0x300` runs `FB_RegisterISR(0, 0x500)`, and the others change nothing. -/
def registeringRoutines : RoutineEffect Unit :=
  fun fn w =>
    if fn = 0x200 then { w with FB_ISR := FB_RegisterISR 1 0x400 w.FB_ISR }
    else if fn = 0x300 then { w with FB_ISR := FB_RegisterISR 0 0x500 w.FB_ISR }
    else w

/-- Macros of the absent header `eoss3_hal_def.h` that `FB_ConfigureInterrupt` compares its
arguments with. -/
structure FbCfgConsts where
  FB_INTERRUPT_TYPE_LEVEL : Nat
  FB_INTERRUPT_POL_LEVEL_LOW : Nat
  FB_INTERRUPT_POL_EDGE_FALL : Nat
  FB_INTERRUPT_DEST_AP_DISBLE : Nat
  FB_INTERRUPT_DEST_M4_DISBLE : Nat
  deriving DecidableEq, Repr

/-- The registers of `INTR_CTRL` that `FB_ConfigureInterrupt` reads and writes. -/
structure INTR_CTRL_TypeDef where
  FB_INTR_TYPE : Nat
  FB_INTR_POL : Nat
  FB_INTR_EN_AP : Nat
  FB_INTR_EN_M4 : Nat
  deriving DecidableEq, Repr

/-- The function `FB_ConfigureInterrupt`, statement by statement, on the registers of
`INTR_CTRL`. -/
def FB_ConfigureInterrupt (c : FbCfgConsts) (fbIrq type polarity destAP destM4 : Nat)
    (INTR_CTRL : INTR_CTRL_TypeDef) : INTR_CTRL_TypeDef :=
  -- Edge or level and polarity
  let s1 : INTR_CTRL_TypeDef :=
    if type = c.FB_INTERRUPT_TYPE_LEVEL then
      let s : INTR_CTRL_TypeDef :=
        { INTR_CTRL with FB_INTR_TYPE := clearBits INTR_CTRL.FB_INTR_TYPE (bit32 fbIrq) }
      if polarity = c.FB_INTERRUPT_POL_LEVEL_LOW then
        { s with FB_INTR_POL := clearBits s.FB_INTR_POL (bit32 fbIrq) }
      else
        { s with FB_INTR_POL := setBits s.FB_INTR_POL (bit32 fbIrq) }
    else
      let s : INTR_CTRL_TypeDef :=
        { INTR_CTRL with FB_INTR_TYPE := setBits INTR_CTRL.FB_INTR_TYPE (bit32 fbIrq) }
      if polarity = c.FB_INTERRUPT_POL_EDGE_FALL then
        { s with FB_INTR_POL := clearBits s.FB_INTR_POL (bit32 fbIrq) }
      else
        { s with FB_INTR_POL := setBits s.FB_INTR_POL (bit32 fbIrq) }
  -- Destination AP
  let s2 : INTR_CTRL_TypeDef :=
    if destAP = c.FB_INTERRUPT_DEST_AP_DISBLE then
      { s1 with FB_INTR_EN_AP := clearBits s1.FB_INTR_EN_AP (bit32 fbIrq) }
    else
      { s1 with FB_INTR_EN_AP := setBits s1.FB_INTR_EN_AP (bit32 fbIrq) }
  -- Destination M4
  if destM4 = c.FB_INTERRUPT_DEST_M4_DISBLE then
    { s2 with FB_INTR_EN_M4 := clearBits s2.FB_INTR_EN_M4 (bit32 fbIrq) }
  else
    { s2 with FB_INTR_EN_M4 := setBits s2.FB_INTR_EN_M4 (bit32 fbIrq) }

/-! ## Assert logging (`sec_debug.c`) -/

/-- Macros of the absent header `eoss3_dev.h` used by `save_assert_info`: the mask of the
reboot-cause field of `REBOOT_STATUS_REG` and the code of a soft fault. -/
structure RebootConsts where
  REBOOT_CAUSE : Nat
  REBOOT_CAUSE_SOFTFAULT : Nat
  deriving DecidableEq, Repr

/-- The calls `save_assert_info` makes to the debug-UART helpers of `dbg_uart.h`. -/
inductive DbgCall where
  | dbg_str (s : String) : DbgCall
  | dbg_str_str (s : String) (t : List Char) : DbgCall
  | dbg_str_int (s : String) (n : Int) : DbgCall
  deriving DecidableEq, Repr

/-- The state `save_assert_info` acts on: the 32-bit register `REBOOT_STATUS_REG`, the bytes
of memory from address `0x20000000` on, and the debug output produced so far. -/
structure SecDebugState where
  REBOOT_STATUS_REG : Nat
  ram_0x20000000 : List Char
  dbg_out : List DbgCall
  deriving DecidableEq, Repr

/-- The library function `strrchr` on a string without its terminator: the suffix that starts
at the last occurrence of `ch`, or `none` (the null pointer) when `ch` does not occur. -/
def strrchr : List Char → Char → Option (List Char)
  | [], _ => none
  | x :: xs, ch =>
    match strrchr xs ch with
    | some t => some t
    | none => if x = ch then some (x :: xs) else none

/-- The backslash character, the separator `save_assert_info` looks for. -/
def BACKSLASH : Char := Char.ofNat 92

/-- The text `sprintf(assert_info, "%s(%d)", ...)` produces: the file name after its last
backslash (the whole name when it has none), then the line number in parentheses. -/
def assert_info (file : List Char) (line : Int) : List Char :=
  (match strrchr file BACKSLASH with
    | some t => t.drop 1
    | none => file)
    ++ [Char.ofNat 40] ++ (toString line).toList ++ [Char.ofNat 41]

/-- The call `strncpy(dst, src, strlen(src))`: the characters of `src` replace the first
`strlen(src)` bytes at `dst`, no terminator is written, later bytes stay. -/
def strncpy_strlen (dst src : List Char) : List Char :=
  src ++ dst.drop src.length

/-- The function `save_assert_info`, statement by statement. -/
def save_assert_info (c : RebootConsts) (file : List Char) (line : Int) (s : SecDebugState) :
    SecDebugState :=
  let out := s.dbg_out ++ [DbgCall.dbg_str "****ASSERT****\n",
    DbgCall.dbg_str_str "assert" file, DbgCall.dbg_str_int "line" line]
  let ram := strncpy_strlen s.ram_0x20000000 (assert_info file line)
  -- REBOOT_STATUS_REG &= ~REBOOT_CAUSE;
  let r1 := clearBits s.REBOOT_STATUS_REG c.REBOOT_CAUSE
  -- REBOOT_STATUS_REG |= REBOOT_CAUSE_SOFTFAULT;
  let r2 := setBits r1 c.REBOOT_CAUSE_SOFTFAULT
  { REBOOT_STATUS_REG := r2, ram_0x20000000 := ram, dbg_out := out }

/-! ## Clock and power configuration (`s3x_pwrcfg.h`, `s3x_pwrcfg.c`) -/

/-- Constants of the absent headers `s3x_clock.h`, `s3x_dfs.h` and `Fw_global_config.h` that
the DFS policy table and `S3x_pwrcfg_init` use: the clock-domain identifiers, the frequency
constants, and the down-thresholds `CPU_DOWN2` to `CPU_DOWN4` for the builds in which
`s3x_pwrcfg.h` does not define them. -/
structure PwrConsts where
  CLK_C01 : Nat
  CLK_C02 : Nat
  CLK_C08X4 : Nat
  CLK_C08X1 : Nat
  CLK_C09 : Nat
  CLK_C10 : Nat
  CLK_C11 : Nat
  CLK_C16 : Nat
  CLK_C19 : Nat
  CLK_C21 : Nat
  CLK_C30 : Nat
  CLK_C31 : Nat
  F_256KHZ : Nat
  F_1MHZ : Nat
  F_3MHZ : Nat
  F_48MHZ : Nat
  HSOSC_1MHZ : Nat
  HSOSC_2MHZ : Nat
  HSOSC_3MHZ : Nat
  HSOSC_4MHZ : Nat
  HSOSC_6MHZ : Nat
  HSOSC_24MHZ : Nat
  HSOSC_36MHZ : Nat
  HSOSC_48MHZ : Nat
  HSOSC_72MHZ : Nat
  CPU_DOWN2 : Nat
  CPU_DOWN3 : Nat
  CPU_DOWN4 : Nat
  deriving DecidableEq, Repr

/-- The four branches of the conditional compilation in `s3x_pwrcfg.h`. -/
inductive Build where
  /-- `ENABLE_VOICE_SOLUTION` is not defined. -/
  | sensorOnly : Build
  /-- `ENABLE_VOICE_SOLUTION`, `ONLY_VOICE_SOLUTION` and `COMPANION_VOICE` are defined. -/
  | onlyVoiceCompanion : Build
  /-- `ENABLE_VOICE_SOLUTION` and `ONLY_VOICE_SOLUTION` are defined, `COMPANION_VOICE` is not. -/
  | onlyVoice : Build
  /-- `ENABLE_VOICE_SOLUTION` is defined, `ONLY_VOICE_SOLUTION` is not. -/
  | sensorAndVoice : Build
  deriving DecidableEq, Repr

/-- The macro `FFE_MHZ`. -/
def FFE_MHZ (c : PwrConsts) : Nat := c.F_1MHZ * 80

/-- The macro `C01_N2_CLK`. -/
def C01_N2_CLK (b : Build) (c : PwrConsts) : Nat :=
  match b with
  | .sensorOnly => c.HSOSC_2MHZ
  | .onlyVoiceCompanion => c.HSOSC_3MHZ
  | .onlyVoice => c.HSOSC_3MHZ
  | .sensorAndVoice => c.HSOSC_2MHZ

/-- The macro `C09_N2_CLK`. -/
def C09_N2_CLK (b : Build) (c : PwrConsts) : Nat :=
  match b with
  | .sensorOnly => c.HSOSC_2MHZ
  | .onlyVoiceCompanion => c.HSOSC_2MHZ
  | .onlyVoice => c.HSOSC_2MHZ
  | .sensorAndVoice => c.HSOSC_2MHZ

/-- The macro `C10_N2_CLK`. -/
def C10_N2_CLK (b : Build) (c : PwrConsts) : Nat :=
  match b with
  | .sensorOnly => c.HSOSC_24MHZ
  | .onlyVoiceCompanion => c.HSOSC_36MHZ
  | .onlyVoice => c.HSOSC_36MHZ
  | .sensorAndVoice => c.HSOSC_36MHZ

/-- The macro `C8X4_N2_CLK`. -/
def C8X4_N2_CLK (b : Build) (c : PwrConsts) : Nat :=
  match b with
  | .sensorOnly => FFE_MHZ c
  | .onlyVoiceCompanion => c.HSOSC_1MHZ
  | .onlyVoice => c.HSOSC_1MHZ
  | .sensorAndVoice => FFE_MHZ c

/-- The macro `STEP_2`, 500 in every build. -/
def STEP_2 : Nat := 500

/-- The macro `C01_N3_CLK`. -/
def C01_N3_CLK (b : Build) (c : PwrConsts) : Nat :=
  match b with
  | .sensorOnly => c.HSOSC_3MHZ
  | .onlyVoiceCompanion => c.HSOSC_3MHZ
  | .onlyVoice => c.HSOSC_3MHZ
  | .sensorAndVoice => c.HSOSC_4MHZ

/-- The macro `C09_N3_CLK`. -/
def C09_N3_CLK (b : Build) (c : PwrConsts) : Nat :=
  match b with
  | .sensorOnly => c.HSOSC_3MHZ
  | .onlyVoiceCompanion => c.HSOSC_3MHZ
  | .onlyVoice => c.HSOSC_3MHZ
  | .sensorAndVoice => c.HSOSC_4MHZ

/-- The macro `C10_N3_CLK`. -/
def C10_N3_CLK (b : Build) (c : PwrConsts) : Nat :=
  match b with
  | .sensorOnly => c.HSOSC_48MHZ
  | .onlyVoiceCompanion => c.HSOSC_48MHZ
  | .onlyVoice => c.HSOSC_48MHZ
  | .sensorAndVoice => c.HSOSC_36MHZ

/-- The macro `C8X4_N3_CLK`. -/
def C8X4_N3_CLK (b : Build) (c : PwrConsts) : Nat :=
  match b with
  | .sensorOnly => FFE_MHZ c
  | .onlyVoiceCompanion => c.HSOSC_1MHZ
  | .onlyVoice => c.HSOSC_1MHZ
  | .sensorAndVoice => FFE_MHZ c

/-- The macro `STEP_3`, 500 in every build. -/
def STEP_3 : Nat := 500

/-- The macro `C01_N4_CLK`. -/
def C01_N4_CLK (b : Build) (c : PwrConsts) : Nat :=
  match b with
  | .sensorOnly => c.HSOSC_6MHZ
  | .onlyVoiceCompanion => c.HSOSC_6MHZ
  | .onlyVoice => c.HSOSC_6MHZ
  | .sensorAndVoice => c.HSOSC_2MHZ

/-- The macro `C09_N4_CLK`. -/
def C09_N4_CLK (b : Build) (c : PwrConsts) : Nat :=
  match b with
  | .sensorOnly => c.HSOSC_6MHZ
  | .onlyVoiceCompanion => c.HSOSC_6MHZ
  | .onlyVoice => c.HSOSC_6MHZ
  | .sensorAndVoice => c.HSOSC_2MHZ

/-- The macro `C10_N4_CLK`. -/
def C10_N4_CLK (b : Build) (c : PwrConsts) : Nat :=
  match b with
  | .sensorOnly => c.HSOSC_72MHZ
  | .onlyVoiceCompanion => c.HSOSC_72MHZ
  | .onlyVoice => c.HSOSC_72MHZ
  | .sensorAndVoice => c.HSOSC_36MHZ

/-- The macro `C8X4_N4_CLK`. -/
def C8X4_N4_CLK (b : Build) (c : PwrConsts) : Nat :=
  match b with
  | .sensorOnly => FFE_MHZ c
  | .onlyVoiceCompanion => c.HSOSC_1MHZ
  | .onlyVoice => c.HSOSC_1MHZ
  | .sensorAndVoice => FFE_MHZ c

/-- The macro `CPU_DOWN2`: 10 in the sensor-and-voice branch of `s3x_pwrcfg.h`, defined
outside this header in the other builds. -/
def CPU_DOWN2 (b : Build) (c : PwrConsts) : Nat :=
  match b with
  | .sensorAndVoice => 10
  | _ => c.CPU_DOWN2

/-- The macro `CPU_DOWN3`: 60 in the sensor-and-voice branch of `s3x_pwrcfg.h`, defined
outside this header in the other builds. -/
def CPU_DOWN3 (b : Build) (c : PwrConsts) : Nat :=
  match b with
  | .sensorAndVoice => 60
  | _ => c.CPU_DOWN3

/-- The macro `CPU_DOWN4`: 60 in the sensor-and-voice branch of `s3x_pwrcfg.h`, defined
outside this header in the other builds. -/
def CPU_DOWN4 (b : Build) (c : PwrConsts) : Nat :=
  match b with
  | .sensorAndVoice => 60
  | _ => c.CPU_DOWN4

/-- The macro `C01_IDX`. -/
def C01_IDX : Nat := 0

/-- The macro `C09_IDX`. -/
def C09_IDX : Nat := 1

/-- The macro `C10_IDX`. -/
def C10_IDX : Nat := 2

/-- The macro `C8X4_IDX`. -/
def C8X4_IDX : Nat := 3

/-- The type `S3x_Policy_Node` of the absent header `s3x_dfs.h`, with the members the
initialiser of `dfs_node` names.  A member an initialiser leaves out is zero. -/
structure S3x_Policy_Node where
  clk_domain : List Nat
  rate : List Nat
  step_width : Nat := 0
  cpuload_downthreshold : Nat := 0
  cpuload_upthreshold : Nat := 0
  policySleep : Nat := 0
  minHSOSC : Nat := 0
  deriving DecidableEq, Repr

/-- The table `dfs_node[]` of `s3x_pwrcfg.c`, entry by entry. -/
def dfs_node (b : Build) (c : PwrConsts) : List S3x_Policy_Node :=
  [ -- [0]: Sleep
    { clk_domain := [c.CLK_C01, c.CLK_C09, c.CLK_C10, c.CLK_C08X4],
      rate := [c.F_256KHZ, c.F_256KHZ, c.F_48MHZ, c.F_256KHZ],
      step_width := 800,
      cpuload_downthreshold := 0,
      cpuload_upthreshold := 98,
      policySleep := 0xFF,
      minHSOSC := c.F_48MHZ },
    -- [1]: Minimum performance
    { clk_domain := [c.CLK_C01, c.CLK_C09, c.CLK_C10, c.CLK_C08X4],
      rate := [c.F_3MHZ, c.F_3MHZ, c.F_48MHZ, c.F_256KHZ],
      step_width := 100,
      cpuload_downthreshold := 0,
      cpuload_upthreshold := 110,
      policySleep := 0,
      minHSOSC := c.F_48MHZ },
    -- [2]
    { clk_domain := [c.CLK_C01, c.CLK_C09, c.CLK_C10, c.CLK_C08X4],
      rate := [C01_N2_CLK b c, C09_N2_CLK b c, C10_N2_CLK b c, C8X4_N2_CLK b c],
      step_width := STEP_2,
      cpuload_downthreshold := CPU_DOWN2 b c },
    -- [3]
    { clk_domain := [c.CLK_C01, c.CLK_C09, c.CLK_C10, c.CLK_C08X4],
      rate := [C01_N3_CLK b c, C09_N3_CLK b c, C10_N3_CLK b c, C8X4_N3_CLK b c],
      step_width := STEP_3,
      cpuload_downthreshold := CPU_DOWN3 b c },
    -- [4]
    { clk_domain := [c.CLK_C01, c.CLK_C09, c.CLK_C10, c.CLK_C08X4],
      rate := [C01_N4_CLK b c, C09_N4_CLK b c, C10_N4_CLK b c, C8X4_N4_CLK b c],
      step_width := STEP_3,
      cpuload_downthreshold := CPU_DOWN4 b c } ]

/-- The designators `[CLK_...] =` of the initialiser of `S3clk[]`, in source order. -/
def S3clk_designators (c : PwrConsts) : List Nat :=
  [c.CLK_C10, c.CLK_C02, c.CLK_C08X4, c.CLK_C11, c.CLK_C16, c.CLK_C30, c.CLK_C19, c.CLK_C21,
    c.CLK_C01, c.CLK_C08X1, c.CLK_C09, c.CLK_C31]

/-- The value `SIZEOF_ARRAY(S3clk)`: an array with designated initialisers and no declared
size has one element more than its largest designator. -/
def SIZEOF_ARRAY_S3clk (c : PwrConsts) : Nat :=
  (S3clk_designators c).foldl max 0 + 1

/-- The globals `S3clkd_size` and `S3_dfs_max_index`, both of type `UINT8_t`. -/
structure PwrCfgGlobals where
  S3clkd_size : Nat
  S3_dfs_max_index : Nat
  deriving DecidableEq, Repr

/-- The external routines `S3x_pwrcfg_init` calls. -/
inductive InitCall where
  | DFS_Initialize : InitCall
  | S3x_Clk_Init : InitCall
  | S3x_pi_init : InitCall
  | DFS_StartTimer : InitCall
  deriving DecidableEq, Repr

/-- The function `S3x_pwrcfg_init`: the values it assigns to the two globals, and the
external routines it then calls, in order. -/
def S3x_pwrcfg_init (b : Build) (c : PwrConsts) : PwrCfgGlobals × List InitCall :=
  ({ S3clkd_size := u8 (SIZEOF_ARRAY_S3clk c),
     S3_dfs_max_index := u8 ((dfs_node b c).length - 1) },
   [InitCall.DFS_Initialize, InitCall.S3x_Clk_Init, InitCall.S3x_pi_init,
    InitCall.DFS_StartTimer])

/-! ### Trace lemmas -/

theorem fbIntrWrites_append (xs ys : List Event) :
    fbIntrWrites (xs ++ ys) = fbIntrWrites xs ++ fbIntrWrites ys := by
  induction xs with
  | nil => rfl
  | cons e es ih => cases e <;> simp [fbIntrWrites, ih]

theorem fbIntrWrites_fbBlock {σ : Type} (run : RoutineEffect σ) (r mask : Nat)
    (slot : Fin MAX_FB_INTERRUPTS) (detect : Nat) (w : FbWorld σ) :
    fbIntrWrites (fbBlock run r mask slot detect w).1
      = if r &&& mask ≠ 0 then [detect] else [] := by
  unfold fbBlock
  by_cases h1 : r &&& mask = 0 <;> by_cases h2 : w.FB_ISR slot = NULL <;>
    simp [h1, h2, fbIntrWrites]

theorem fbIntrWrites_prologue (cfg : Nat) :
    fbIntrWrites (if cfg = 1 then [Event.save_irq_history] else []) = [] := by
  by_cases h : cfg = 1 <;> simp [h, fbIntrWrites]

/-- The handler is its prologue followed by the blocks of the four slots in ascending
order. -/
theorem FbMsg_Handler_eq_runSlots {σ : Type} (run : RoutineEffect σ) (k : FbMasks)
    (cfg : Nat) (raw : Nat → Nat) (w : FbWorld σ) :
    FbMsg_Handler run k cfg raw w
      = ((if cfg = 1 then [Event.save_irq_history] else [])
            ++ (runSlots run k raw fbSlots w).1,
          (runSlots run k raw fbSlots w).2) := by
  simp only [FbMsg_Handler, runSlots, fbSlots, List.append_nil, List.append_assoc]
  rfl

theorem fbIntrWrites_FbMsg_Handler {σ : Type} (run : RoutineEffect σ) (k : FbMasks)
    (cfg : Nat) (raw : Nat → Nat) (w : FbWorld σ) :
    fbIntrWrites (FbMsg_Handler run k cfg raw w).1
      = fbIntrWrites (runSlots run k raw fbSlots w).1 := by
  rw [FbMsg_Handler_eq_runSlots, fbIntrWrites_append, fbIntrWrites_prologue, List.nil_append]

theorem fin4_cases (i : Fin MAX_FB_INTERRUPTS) : i = 0 ∨ i = 1 ∨ i = 2 ∨ i = 3 := by
  revert i; decide

theorem filter_map_cons_singleton {α β : Type} (p : α → Prop) [DecidablePred p] (g : α → β)
    (a : α) (l : List α) :
    ((a :: l).filter (fun i => decide (p i))).map g
      = (if p a then [g a] else []) ++ (l.filter (fun i => decide (p i))).map g := by
  by_cases h : p a <;> simp [List.filter_cons, h]

/-- The stores to `FB_INTR` of the blocks of `l` do not depend on the routines or the
table. -/
theorem fbIntrWrites_runSlots {σ : Type} (run : RoutineEffect σ) (k : FbMasks)
    (raw : Nat → Nat) (l : List (Fin MAX_FB_INTERRUPTS)) (w : FbWorld σ) :
    fbIntrWrites (runSlots run k raw l w).1
      = (l.filter (fun i => decide (raw i.val &&& k.raw i ≠ 0))).map k.detect := by
  induction l generalizing w with
  | nil => rfl
  | cons a l ih =>
    rw [filter_map_cons_singleton (fun i => raw i.val &&& k.raw i ≠ 0)]
    simp only [runSlots, fbIntrWrites_append, fbIntrWrites_fbBlock, ih]

theorem u32_lt (x : Nat) : u32 x < 2 ^ 32 := by
  unfold u32 WORD_BITS
  exact Nat.mod_lt _ (by norm_num)

theorem testBit_u32 (x j : Nat) : (u32 x).testBit j = (decide (j < 32) && x.testBit j) := by
  unfold u32 WORD_BITS
  rw [Nat.testBit_mod_two_pow]

theorem testBit_bit32 (n j : Nat) :
    (bit32 n).testBit j = (decide (j < 32) && decide (n = j)) := by
  unfold bit32
  rw [testBit_u32, Nat.one_shiftLeft, Nat.testBit_two_pow]

theorem testBit_not32 (x j : Nat) :
    (not32 x).testBit j = (decide (j < 32) && !x.testBit j) := by
  unfold not32
  rw [Nat.testBit_xor, testBit_u32]
  unfold WORD_BITS
  rw [Nat.testBit_two_pow_sub_one]
  cases decide (j < 32) <;> cases x.testBit j <;> rfl

theorem testBit_clearBits (reg n j : Nat) :
    (clearBits reg (bit32 n)).testBit j
      = (decide (j < 32) && (reg.testBit j && !decide (n = j))) := by
  unfold clearBits
  rw [testBit_u32, Nat.testBit_and, testBit_not32, testBit_bit32]
  cases decide (j < 32) <;> cases reg.testBit j <;> cases decide (n = j) <;> rfl

theorem testBit_setBits (reg n j : Nat) :
    (setBits reg (bit32 n)).testBit j
      = (decide (j < 32) && (reg.testBit j || decide (n = j))) := by
  unfold setBits
  rw [testBit_u32, Nat.testBit_or, testBit_bit32]
  cases decide (j < 32) <;> cases reg.testBit j <;> cases decide (n = j) <;> rfl

/-- The type register after `FB_ConfigureInterrupt`. -/
theorem FB_ConfigureInterrupt_TYPE (c : FbCfgConsts) (fbIrq type polarity destAP destM4 : Nat)
    (s : INTR_CTRL_TypeDef) :
    (FB_ConfigureInterrupt c fbIrq type polarity destAP destM4 s).FB_INTR_TYPE
      = if type = c.FB_INTERRUPT_TYPE_LEVEL then clearBits s.FB_INTR_TYPE (bit32 fbIrq)
        else setBits s.FB_INTR_TYPE (bit32 fbIrq) := by
  unfold FB_ConfigureInterrupt
  dsimp only
  split_ifs <;> rfl

/-- The polarity register after `FB_ConfigureInterrupt`. -/
theorem FB_ConfigureInterrupt_POL (c : FbCfgConsts) (fbIrq type polarity destAP destM4 : Nat)
    (s : INTR_CTRL_TypeDef) :
    (FB_ConfigureInterrupt c fbIrq type polarity destAP destM4 s).FB_INTR_POL
      = if (type = c.FB_INTERRUPT_TYPE_LEVEL ∧ polarity = c.FB_INTERRUPT_POL_LEVEL_LOW)
            ∨ (type ≠ c.FB_INTERRUPT_TYPE_LEVEL ∧ polarity = c.FB_INTERRUPT_POL_EDGE_FALL)
        then clearBits s.FB_INTR_POL (bit32 fbIrq)
        else setBits s.FB_INTR_POL (bit32 fbIrq) := by
  unfold FB_ConfigureInterrupt
  dsimp only
  split_ifs <;> first | rfl | simp_all

/-! ### The claims on `FbMsg_Handler` and `FB_RegisterISR` -/

/-- C2: with the raw status `r` read unchanged at all four reads, the stores to
`INTR_CTRL->FB_INTR` are, in ascending slot order, one store of `FB_i_INTR_DETECT` for every
slot `i` whose bit `FB_i_INTR_RAW` is set in `r` and no other store; neither the handler
table nor what the routines do enters the right-hand side, so a raised slot holding `NULL`
is cleared all the same; and the handler stores nothing to `FB_INTR` exactly when no raw bit
is set. -/
theorem FbMsg_Handler_clears_raised {σ : Type} (run : RoutineEffect σ) (k : FbMasks)
    (cfg r : Nat) (w : FbWorld σ) :
    fbIntrWrites (FbMsg_Handler run k cfg (fun _ => r) w).1
        = (fbSlots.filter (fun i => decide (r &&& k.raw i ≠ 0))).map k.detect
      ∧ (fbIntrWrites (FbMsg_Handler run k cfg (fun _ => r) w).1 = []
          ↔ ∀ i : Fin MAX_FB_INTERRUPTS, r &&& k.raw i = 0) := by
  have key : fbIntrWrites (FbMsg_Handler run k cfg (fun _ => r) w).1
      = (fbSlots.filter (fun i => decide (r &&& k.raw i ≠ 0))).map k.detect := by
    rw [fbIntrWrites_FbMsg_Handler]
    exact fbIntrWrites_runSlots run k (fun _ => r) fbSlots w
  refine ⟨key, ?_⟩
  rw [key]
  simp only [List.map_eq_nil_iff, List.filter_eq_nil_iff, decide_eq_true_eq, not_not,
    ne_eq]
  constructor
  · intro h i
    apply h
    rcases fin4_cases i with rfl | rfl | rfl | rfl <;> simp [fbSlots, FB_INTERRUPT_0,
      FB_INTERRUPT_1, FB_INTERRUPT_2, FB_INTERRUPT_3]
  · intro h i _
    exact h i

/-- C4: for `fbIrq >= MAX_FB_INTERRUPTS` and any function pointer, `FB_RegisterISR` leaves the
whole table `FB_ISR` as it was; the store into the table is never reached with an index
outside it. -/
theorem FB_RegisterISR_out_of_range (fbIrq : Nat) (h : MAX_FB_INTERRUPTS ≤ fbIrq)
    (f : HAL_FBISRfunction) (T : FB_ISR_Table) :
    FB_RegisterISR fbIrq f T = T := by
  unfold FB_RegisterISR
  rw [dif_neg (Nat.not_lt.mpr h)]

/-- Witness of C4: registering routine 7 for interrupt number 4 on the initial table. -/
theorem FB_RegisterISR_out_of_range_witness :
    MAX_FB_INTERRUPTS ≤ 4 ∧ FB_RegisterISR 4 7 FB_ISR_init = FB_ISR_init :=
  ⟨by decide, FB_RegisterISR_out_of_range 4 (by decide) 7 FB_ISR_init⟩

/-- C5: for `fbIrq < 32` and any prior register contents, after `FB_ConfigureInterrupt` bit
`fbIrq` of `FB_INTR_TYPE` is 0 when `type == FB_INTERRUPT_TYPE_LEVEL` and 1 for every other
value of `type`, every other bit of the 32-bit register is as before, and the register still
holds a 32-bit value. -/
theorem FB_ConfigureInterrupt_type_bit (c : FbCfgConsts)
    (fbIrq type polarity destAP destM4 : Nat) (s : INTR_CTRL_TypeDef) (h : fbIrq < 32) :
    (FB_ConfigureInterrupt c fbIrq type polarity destAP destM4 s).FB_INTR_TYPE.testBit fbIrq
        = decide (type ≠ c.FB_INTERRUPT_TYPE_LEVEL)
      ∧ (∀ j : Nat, j < 32 → j ≠ fbIrq →
          (FB_ConfigureInterrupt c fbIrq type polarity destAP destM4 s).FB_INTR_TYPE.testBit j
            = s.FB_INTR_TYPE.testBit j)
      ∧ (FB_ConfigureInterrupt c fbIrq type polarity destAP destM4 s).FB_INTR_TYPE < 2 ^ 32 := by
  rw [FB_ConfigureInterrupt_TYPE]
  by_cases ht : type = c.FB_INTERRUPT_TYPE_LEVEL
  · simp only [ht, if_true]
    refine ⟨?_, ?_, u32_lt _⟩
    · rw [testBit_clearBits]; simp
    · intro j hj hne
      rw [testBit_clearBits]
      simp [hj, Ne.symm hne]
  · simp only [ht, if_false]
    refine ⟨?_, ?_, u32_lt _⟩
    · rw [testBit_setBits]; simp [h, ht]
    · intro j hj hne
      rw [testBit_setBits]
      simp [hj, Ne.symm hne]

/-- Witness of C5: interrupt 31 configured as non-level on an all-ones type register. -/
theorem FB_ConfigureInterrupt_type_bit_witness :
    31 < 32
      ∧ (FB_ConfigureInterrupt ⟨0, 0, 0, 0, 0⟩ 31 1 1 0 0
            ⟨0xFFFFFFFF, 0, 0, 0⟩).FB_INTR_TYPE.testBit 31
          = decide (1 ≠ (⟨0, 0, 0, 0, 0⟩ : FbCfgConsts).FB_INTERRUPT_TYPE_LEVEL)
      ∧ (∀ j : Nat, j < 32 → j ≠ 31 →
          (FB_ConfigureInterrupt ⟨0, 0, 0, 0, 0⟩ 31 1 1 0 0
              ⟨0xFFFFFFFF, 0, 0, 0⟩).FB_INTR_TYPE.testBit j
            = (⟨0xFFFFFFFF, 0, 0, 0⟩ : INTR_CTRL_TypeDef).FB_INTR_TYPE.testBit j)
      ∧ (FB_ConfigureInterrupt ⟨0, 0, 0, 0, 0⟩ 31 1 1 0 0
            ⟨0xFFFFFFFF, 0, 0, 0⟩).FB_INTR_TYPE < 2 ^ 32 :=
  ⟨by decide, FB_ConfigureInterrupt_type_bit ⟨0, 0, 0, 0, 0⟩ 31 1 1 0 0 ⟨0xFFFFFFFF, 0, 0, 0⟩
    (by decide)⟩

/-- C6: for `fbIrq < 32`, after `FB_ConfigureInterrupt` bit `fbIrq` of `FB_INTR_POL` is 0
exactly when (`type == FB_INTERRUPT_TYPE_LEVEL` and `polarity == FB_INTERRUPT_POL_LEVEL_LOW`)
or (`type != FB_INTERRUPT_TYPE_LEVEL` and `polarity == FB_INTERRUPT_POL_EDGE_FALL`), and 1
otherwise; every other bit of the 32-bit register is as before, and the register still holds
a 32-bit value. -/
theorem FB_ConfigureInterrupt_pol_bit (c : FbCfgConsts)
    (fbIrq type polarity destAP destM4 : Nat) (s : INTR_CTRL_TypeDef) (h : fbIrq < 32) :
    (FB_ConfigureInterrupt c fbIrq type polarity destAP destM4 s).FB_INTR_POL.testBit fbIrq
        = !decide ((type = c.FB_INTERRUPT_TYPE_LEVEL
                      ∧ polarity = c.FB_INTERRUPT_POL_LEVEL_LOW)
                    ∨ (type ≠ c.FB_INTERRUPT_TYPE_LEVEL
                      ∧ polarity = c.FB_INTERRUPT_POL_EDGE_FALL))
      ∧ (∀ j : Nat, j < 32 → j ≠ fbIrq →
          (FB_ConfigureInterrupt c fbIrq type polarity destAP destM4 s).FB_INTR_POL.testBit j
            = s.FB_INTR_POL.testBit j)
      ∧ (FB_ConfigureInterrupt c fbIrq type polarity destAP destM4 s).FB_INTR_POL < 2 ^ 32 := by
  rw [FB_ConfigureInterrupt_POL]
  by_cases hp : (type = c.FB_INTERRUPT_TYPE_LEVEL ∧ polarity = c.FB_INTERRUPT_POL_LEVEL_LOW)
      ∨ (type ≠ c.FB_INTERRUPT_TYPE_LEVEL ∧ polarity = c.FB_INTERRUPT_POL_EDGE_FALL)
  · rw [if_pos hp]
    refine ⟨?_, ?_, u32_lt _⟩
    · rw [testBit_clearBits]; simp [hp]
    · intro j hj hne
      rw [testBit_clearBits]
      simp [hj, Ne.symm hne]
  · rw [if_neg hp]
    refine ⟨?_, ?_, u32_lt _⟩
    · rw [testBit_setBits]; simp [h, hp]
    · intro j hj hne
      rw [testBit_setBits]
      simp [hj, Ne.symm hne]

/-- Witness of C6: interrupt 5 configured as level, active low, on an all-ones polarity
register, with the level type coded 0 and both low polarities coded 0. -/
theorem FB_ConfigureInterrupt_pol_bit_witness :
    5 < 32
      ∧ (FB_ConfigureInterrupt ⟨0, 0, 0, 0, 0⟩ 5 0 0 1 1
            ⟨0, 0xFFFFFFFF, 0, 0⟩).FB_INTR_POL.testBit 5
          = !decide (((0 : Nat) = (⟨0, 0, 0, 0, 0⟩ : FbCfgConsts).FB_INTERRUPT_TYPE_LEVEL
                        ∧ (0 : Nat) = (⟨0, 0, 0, 0, 0⟩ : FbCfgConsts).FB_INTERRUPT_POL_LEVEL_LOW)
                      ∨ ((0 : Nat) ≠ (⟨0, 0, 0, 0, 0⟩ : FbCfgConsts).FB_INTERRUPT_TYPE_LEVEL
                        ∧ (0 : Nat) = (⟨0, 0, 0, 0, 0⟩ : FbCfgConsts).FB_INTERRUPT_POL_EDGE_FALL))
      ∧ (∀ j : Nat, j < 32 → j ≠ 5 →
          (FB_ConfigureInterrupt ⟨0, 0, 0, 0, 0⟩ 5 0 0 1 1
              ⟨0, 0xFFFFFFFF, 0, 0⟩).FB_INTR_POL.testBit j
            = (⟨0, 0xFFFFFFFF, 0, 0⟩ : INTR_CTRL_TypeDef).FB_INTR_POL.testBit j)
      ∧ (FB_ConfigureInterrupt ⟨0, 0, 0, 0, 0⟩ 5 0 0 1 1
            ⟨0, 0xFFFFFFFF, 0, 0⟩).FB_INTR_POL < 2 ^ 32 :=
  ⟨by decide, FB_ConfigureInterrupt_pol_bit ⟨0, 0, 0, 0, 0⟩ 5 0 0 1 1 ⟨0, 0xFFFFFFFF, 0, 0⟩
    (by decide)⟩

theorem testBit_false_of_lt_two_pow_32 (x j : Nat) (hx : x < 2 ^ 32) (hj : 32 ≤ j) :
    x.testBit j = false := by
  apply Nat.testBit_lt_two_pow
  calc x < 2 ^ 32 := hx
    _ ≤ 2 ^ j := Nat.pow_le_pow_right (by norm_num) hj

/-- The register `REBOOT_STATUS_REG` after `save_assert_info`. -/
theorem save_assert_info_REG (c : RebootConsts) (file : List Char) (line : Int)
    (s : SecDebugState) :
    (save_assert_info c file line s).REBOOT_STATUS_REG
      = u32 (u32 (s.REBOOT_STATUS_REG &&& not32 c.REBOOT_CAUSE) ||| c.REBOOT_CAUSE_SOFTFAULT) :=
  rfl

/-- Bit `j` of `REBOOT_STATUS_REG` after `save_assert_info`. -/
theorem save_assert_info_testBit (c : RebootConsts) (file : List Char) (line : Int)
    (s : SecDebugState) (j : Nat) :
    (save_assert_info c file line s).REBOOT_STATUS_REG.testBit j
      = (decide (j < 32) && ((s.REBOOT_STATUS_REG.testBit j && !c.REBOOT_CAUSE.testBit j)
          || c.REBOOT_CAUSE_SOFTFAULT.testBit j)) := by
  rw [save_assert_info_REG, testBit_u32, Nat.testBit_or, testBit_u32, Nat.testBit_and,
    testBit_not32]
  cases decide (j < 32) <;> cases s.REBOOT_STATUS_REG.testBit j <;>
    cases c.REBOOT_CAUSE.testBit j <;> cases c.REBOOT_CAUSE_SOFTFAULT.testBit j <;> rfl

/-- C7: for every prior 32-bit value `v` of `REBOOT_STATUS_REG` and a 32-bit soft-fault code
lying within the `REBOOT_CAUSE` mask, the value after `save_assert_info` is
`(v AND NOT REBOOT_CAUSE) OR REBOOT_CAUSE_SOFTFAULT`; its cause field (the bits of
`REBOOT_CAUSE`) equals `REBOOT_CAUSE_SOFTFAULT` whatever the previous cause was, and every
bit outside `REBOOT_CAUSE` is preserved. -/
theorem save_assert_info_reboot_cause (c : RebootConsts) (file : List Char) (line : Int)
    (s : SecDebugState) (hv : s.REBOOT_STATUS_REG < 2 ^ 32)
    (hS : c.REBOOT_CAUSE_SOFTFAULT < 2 ^ 32)
    (hin : c.REBOOT_CAUSE_SOFTFAULT &&& c.REBOOT_CAUSE = c.REBOOT_CAUSE_SOFTFAULT) :
    (save_assert_info c file line s).REBOOT_STATUS_REG
        = (s.REBOOT_STATUS_REG &&& not32 c.REBOOT_CAUSE) ||| c.REBOOT_CAUSE_SOFTFAULT
      ∧ (save_assert_info c file line s).REBOOT_STATUS_REG &&& c.REBOOT_CAUSE
        = c.REBOOT_CAUSE_SOFTFAULT
      ∧ (save_assert_info c file line s).REBOOT_STATUS_REG &&& not32 c.REBOOT_CAUSE
        = s.REBOOT_STATUS_REG &&& not32 c.REBOOT_CAUSE := by
  have hbit : ∀ j, c.REBOOT_CAUSE_SOFTFAULT.testBit j = true → c.REBOOT_CAUSE.testBit j = true := by
    intro j hj
    have e := congrArg (fun x => x.testBit j) hin
    simp only [Nat.testBit_and, hj, Bool.true_and] at e
    exact e
  have hhi : ∀ j, 32 ≤ j → c.REBOOT_CAUSE_SOFTFAULT.testBit j = false :=
    fun j hj => testBit_false_of_lt_two_pow_32 _ j hS hj
  have hvhi : ∀ j, 32 ≤ j → s.REBOOT_STATUS_REG.testBit j = false :=
    fun j hj => testBit_false_of_lt_two_pow_32 _ j hv hj
  refine ⟨?_, ?_, ?_⟩
  · apply Nat.eq_of_testBit_eq
    intro j
    rw [save_assert_info_testBit, Nat.testBit_or, Nat.testBit_and, testBit_not32]
    by_cases hj : j < 32
    · simp [hj]
    · have h1 := hhi j (Nat.le_of_not_lt hj)
      simp [hj, h1]
  · apply Nat.eq_of_testBit_eq
    intro j
    rw [Nat.testBit_and, save_assert_info_testBit]
    by_cases hj : j < 32
    · have h1 := hbit j
      cases hS1 : c.REBOOT_CAUSE_SOFTFAULT.testBit j
      · cases c.REBOOT_CAUSE.testBit j <;> simp [hj]
      · rw [h1 hS1]; simp [hj]
    · have h1 := hhi j (Nat.le_of_not_lt hj)
      simp [hj, h1]
  · apply Nat.eq_of_testBit_eq
    intro j
    rw [Nat.testBit_and, Nat.testBit_and, save_assert_info_testBit, testBit_not32]
    by_cases hj : j < 32
    · have h1 := hbit j
      cases hS1 : c.REBOOT_CAUSE_SOFTFAULT.testBit j
      · cases c.REBOOT_CAUSE.testBit j <;> simp [hj]
      · rw [h1 hS1]; simp [hj]
    · simp [hj]

/-- Witness of C7: cause mask `0xF`, soft-fault code `0x2`, prior register value
`0xABCD0005`, assert raised at line 42 of `C:\src\main.c`. -/
theorem save_assert_info_reboot_cause_witness :
    (⟨0xABCD0005, [], []⟩ : SecDebugState).REBOOT_STATUS_REG < 2 ^ 32
      ∧ (⟨0xF, 0x2⟩ : RebootConsts).REBOOT_CAUSE_SOFTFAULT < 2 ^ 32
      ∧ (⟨0xF, 0x2⟩ : RebootConsts).REBOOT_CAUSE_SOFTFAULT &&& (⟨0xF, 0x2⟩ : RebootConsts).REBOOT_CAUSE
          = (⟨0xF, 0x2⟩ : RebootConsts).REBOOT_CAUSE_SOFTFAULT
      ∧ (save_assert_info ⟨0xF, 0x2⟩ "C:\\src\\main.c".toList 42
            ⟨0xABCD0005, [], []⟩).REBOOT_STATUS_REG
          = ((⟨0xABCD0005, [], []⟩ : SecDebugState).REBOOT_STATUS_REG
              &&& not32 (⟨0xF, 0x2⟩ : RebootConsts).REBOOT_CAUSE)
            ||| (⟨0xF, 0x2⟩ : RebootConsts).REBOOT_CAUSE_SOFTFAULT
      ∧ (save_assert_info ⟨0xF, 0x2⟩ "C:\\src\\main.c".toList 42
            ⟨0xABCD0005, [], []⟩).REBOOT_STATUS_REG &&& (⟨0xF, 0x2⟩ : RebootConsts).REBOOT_CAUSE
          = (⟨0xF, 0x2⟩ : RebootConsts).REBOOT_CAUSE_SOFTFAULT
      ∧ (save_assert_info ⟨0xF, 0x2⟩ "C:\\src\\main.c".toList 42
            ⟨0xABCD0005, [], []⟩).REBOOT_STATUS_REG
            &&& not32 (⟨0xF, 0x2⟩ : RebootConsts).REBOOT_CAUSE
          = (⟨0xABCD0005, [], []⟩ : SecDebugState).REBOOT_STATUS_REG
            &&& not32 (⟨0xF, 0x2⟩ : RebootConsts).REBOOT_CAUSE :=
  ⟨by decide, by decide, by decide,
    save_assert_info_reboot_cause ⟨0xF, 0x2⟩ "C:\\src\\main.c".toList 42 ⟨0xABCD0005, [], []⟩
      (by decide) (by decide) (by decide)⟩

/-! ### The claims on the DFS policy table -/

/-- C8: in every build, node 0 of `dfs_node` has `policySleep == 0xFF`; node 1 has
`cpuload_downthreshold == 0` and `policySleep == 0`; `S3x_pwrcfg_init` sets
`S3_dfs_max_index` to 4, the number of nodes minus one; and every `policySleep` value of the
table other than `0xFF` is at most `S3_dfs_max_index`. -/
theorem dfs_node_policySleep (b : Build) (c : PwrConsts) :
    ((dfs_node b c)[0]?).map (fun n => n.policySleep) = some 0xFF
      ∧ ((dfs_node b c)[1]?).map (fun n => (n.cpuload_downthreshold, n.policySleep))
          = some (0, 0)
      ∧ (S3x_pwrcfg_init b c).1.S3_dfs_max_index = 4
      ∧ (S3x_pwrcfg_init b c).1.S3_dfs_max_index = (dfs_node b c).length - 1
      ∧ ∀ n ∈ dfs_node b c, n.policySleep ≠ 0xFF →
          n.policySleep ≤ (S3x_pwrcfg_init b c).1.S3_dfs_max_index := by
  refine ⟨rfl, rfl, rfl, rfl, ?_⟩
  intro n hn _
  have h4 : (S3x_pwrcfg_init b c).1.S3_dfs_max_index = 4 := rfl
  rw [h4]
  simp only [dfs_node, List.mem_cons, List.mem_singleton, List.not_mem_nil, or_false] at hn
  rcases hn with rfl | rfl | rfl | rfl | rfl <;> simp_all

/-- C9: in every build, each of the five nodes of `dfs_node` lists its clock domains in the
order of the index macros: `clk_domain[C01_IDX] == CLK_C01`, `clk_domain[C09_IDX] == CLK_C09`,
`clk_domain[C10_IDX] == CLK_C10` and `clk_domain[C8X4_IDX] == CLK_C08X4`, with exactly four
domains and four rates, so that `rate[k]` stands beside the domain that index `k` names; and
for nodes 0 and 1 the C10 rate `rate[C10_IDX]` equals their `minHSOSC`, which is `F_48MHZ`. -/
theorem dfs_node_clk_domain_order (b : Build) (c : PwrConsts) :
    (dfs_node b c).length = 5
      ∧ (∀ n ∈ dfs_node b c,
          n.clk_domain[C01_IDX]? = some c.CLK_C01
            ∧ n.clk_domain[C09_IDX]? = some c.CLK_C09
            ∧ n.clk_domain[C10_IDX]? = some c.CLK_C10
            ∧ n.clk_domain[C8X4_IDX]? = some c.CLK_C08X4
            ∧ n.clk_domain.length = 4
            ∧ n.rate.length = 4)
      ∧ ((dfs_node b c)[0]?).map (fun n => (n.rate[C10_IDX]?, n.minHSOSC))
          = some (some c.F_48MHZ, c.F_48MHZ)
      ∧ ((dfs_node b c)[1]?).map (fun n => (n.rate[C10_IDX]?, n.minHSOSC))
          = some (some c.F_48MHZ, c.F_48MHZ) := by
  refine ⟨rfl, ?_, rfl, rfl⟩
  intro n hn
  simp only [dfs_node, List.mem_cons, List.mem_singleton, List.not_mem_nil, or_false] at hn
  rcases hn with rfl | rfl | rfl | rfl | rfl <;>
    exact ⟨rfl, rfl, rfl, rfl, rfl, rfl⟩

/-! ### Evaluation on concrete inputs -/

/-- A handler run with masks `1, 2, 4, 8`, raw status `0b1011` and routines registered in
slots 0, 2 and 3: slot 0 is called and cleared, slot 1 is cleared without a call, slot 2 is
left alone, slot 3 is called and cleared; the two routines called are counted. -/
theorem FbMsg_Handler_eval :
    (FbMsg_Handler countingRoutines exampleMasks 0 (fun _ => 0b1011)
        ⟨FB_RegisterISR 3 0x100 (FB_RegisterISR 2 0x300 (FB_RegisterISR 0 0x200
          FB_ISR_init)), 0⟩).1
      = [Event.call 0 0x200, Event.write_FB_INTR 1, Event.write_FB_INTR 2,
          Event.call 3 0x100, Event.write_FB_INTR 8]
    ∧ (FbMsg_Handler countingRoutines exampleMasks 0 (fun _ => 0b1011)
        ⟨FB_RegisterISR 3 0x100 (FB_RegisterISR 2 0x300 (FB_RegisterISR 0 0x200
          FB_ISR_init)), 0⟩).2.rest = 2 := by
  decide

/-- A handler run in which the routine of slot 0 registers `0x400` in slot 1: with raw
status 3 the new routine is called in the same run, and slot 1 holds it at exit. -/
theorem FbMsg_Handler_eval_registering :
    (FbMsg_Handler registeringRoutines exampleMasks 0 (fun _ => 3)
        ⟨FB_RegisterISR 0 0x200 FB_ISR_init, ()⟩).1
      = [Event.call 0 0x200, Event.write_FB_INTR 1, Event.call 1 0x400,
          Event.write_FB_INTR 2]
    ∧ (FbMsg_Handler registeringRoutines exampleMasks 0 (fun _ => 3)
        ⟨FB_RegisterISR 0 0x200 FB_ISR_init, ()⟩).2.FB_ISR 1 = 0x400 := by
  decide

/-- Interrupt 3 configured as level (coded 0), polarity 1, AP disabled (coded 0), M4
enabled. -/
theorem FB_ConfigureInterrupt_eval :
    FB_ConfigureInterrupt ⟨0, 0, 0, 0, 0⟩ 3 0 1 0 1 ⟨0xFF, 0, 0xFF, 0⟩
      = ⟨0xF7, 8, 0xF7, 8⟩ := by
  decide

/-- An assert at line 42 of `C:\src\main.c` with cause mask `0xF` and soft-fault code 2. -/
theorem save_assert_info_eval :
    save_assert_info ⟨0xF, 0x2⟩ "C:\\src\\main.c".toList 42
        ⟨0xABCD0005, "zzzzzzzzzzzzzz".toList, []⟩
      = ⟨0xABCD0002, "main.c(42)zzzz".toList,
          [DbgCall.dbg_str "****ASSERT****\n",
            DbgCall.dbg_str_str "assert" "C:\\src\\main.c".toList,
            DbgCall.dbg_str_int "line" 42]⟩ := by
  decide

end LibEos
